import Mathlib

/-!
Verification of the HappyPack orchestration engine (`HappyPlugin.js`) and its
option handling (`lib/OptionParser.js`).

The engine's lifecycle and routing logic is embedded shallowly: the mutable
plugin state becomes an explicit `EngineState` record, and every interaction
with an external collaborator (the `HappyThreadPool` worker pool, the
`HappyFSCache` cache, the filesystem, the `applyLoaders` transform pipeline)
is recorded as an element of an effect trace, while the collaborator's answer
(write success, pool-start result, cache query answers, worker result, loader
outcome) is supplied as an explicit oracle argument.  These collaborators live
in repository files outside `src/`, so they are modelled at their interface as
the spec describes them.
-/

namespace HappyPack

/-- The subset of the validated plugin configuration that the lifecycle logic
inspects: `config.cache` (line 122/140) and `config.installExitHandler`. -/
structure HappyConfig where
  cache : Bool
  installExitHandler : Bool
deriving DecidableEq, Repr

/-- `this.state` of the plugin (lines 19-22), plus a flag recording whether
`that.threadPool` has been assigned (line 120), which `teardown` tests
(line 144). -/
structure EngineState where
  started : Bool
  initialBuildCompleted : Bool
  threadPool : Bool
deriving DecidableEq, Repr

/-- The state a freshly constructed plugin is in (lines 19-22; no thread pool
has been assigned yet). -/
def initialState : EngineState :=
  { started := false, initialBuildCompleted := false, threadPool := false }

/-- Oracle for the external outcomes observed during `start` (lines 98-136):
whether `fs.writeFileSync` of the options snapshot throws, and the error (if
any) the thread pool passes to the `threadPool.start` callback. -/
structure StartEnv where
  writeError : Option String
  poolError : Option String
deriving DecidableEq, Repr

/-- The externally visible steps `start` can take, in trace order:
writing the configuration snapshot (line 108), constructing the thread pool
(line 120), loading the cache (line 123), invoking `threadPool.start`
(line 127). -/
inductive StartEff
  | writeSnapshot
  | constructPool
  | cacheLoad
  | poolStart
deriving DecidableEq, Repr

/-- Shallow embedding of `start(_, done)` (lines 98-136).  Returns the new
engine state, the trace of collaborator effects, and the argument `start`
passes to the host's `done` callback (`none` for a plain `done()`, `some e`
for `done(e)`).

If the engine is already started or the initial build completed, `done()` is
invoked with no effects (lines 99-101).  Otherwise the snapshot write is
attempted; a thrown error is returned through `done(e)` (lines 107-118).  Then
the pool is constructed (line 120), the cache loaded when caching is enabled
(lines 122-124), and `threadPool.start` invoked (line 127): its callback either
forwards the pool error, leaving `started` false, or sets `started := true`
and calls `done()` (lines 127-135). -/
def start (cfg : HappyConfig) (st : EngineState) (env : StartEnv) :
    EngineState × List StartEff × Option String :=
  if st.started || st.initialBuildCompleted then
    (st, [], none)
  else
    match env.writeError with
    | some e => (st, [StartEff.writeSnapshot], some e)
    | none =>
      let effs := [StartEff.writeSnapshot, StartEff.constructPool]
        ++ (if cfg.cache then [StartEff.cacheLoad] else [])
        ++ [StartEff.poolStart]
      let st1 := { st with threadPool := true }
      match env.poolError with
      | some e => (st1, effs, some e)
      | none => ({ st1 with started := true }, effs, none)

/-- The externally visible steps `teardown` can take: `cache.save()`
(line 141) and `threadPool.stop()` (line 145). -/
inductive TeardownEff
  | cacheSave
  | poolStop
deriving DecidableEq, Repr

/-- Shallow embedding of `teardown()` (lines 138-150): when `started`, save
the cache if caching is enabled, stop the pool if one was constructed, and
clear `started`; otherwise do nothing. -/
def teardown (cfg : HappyConfig) (st : EngineState) :
    EngineState × List TeardownEff :=
  if st.started then
    ({ st with started := false },
      (if cfg.cache then [TeardownEff.cacheSave] else [])
        ++ (if st.threadPool then [TeardownEff.poolStop] else []))
  else
    (st, [])

/-- The host events the plugin subscribes to in `apply` (lines 76-96):
`run` and `watch-run` trigger `start`; `done` triggers `teardown` and then
sets `initialBuildCompleted` (lines 85-89); `failed-module` under `bail`
(lines 79-83) and process exit in watch mode (line 92) trigger `teardown`. -/
inductive HostEvent
  | run (env : StartEnv)
  | watchRun (env : StartEnv)
  | buildDone
  | failedModule
  | processExit
deriving Repr

/-- The engine-state transition performed by each host event handler
registered in `apply` (lines 69-151). -/
def stepState (cfg : HappyConfig) (st : EngineState) : HostEvent → EngineState
  | HostEvent.run env => (start cfg st env).1
  | HostEvent.watchRun env => (start cfg st env).1
  | HostEvent.buildDone =>
    { (teardown cfg st).1 with initialBuildCompleted := true }
  | HostEvent.failedModule => (teardown cfg st).1
  | HostEvent.processExit => (teardown cfg st).1

/-- The two compile routes of `HappyPlugin.prototype.compile`. -/
inductive CompileTarget
  | foreground
  | background
deriving DecidableEq, Repr

/-- Shallow embedding of the dispatch in `compile(source, map, filePath,
done)` (lines 153-160): route to the foreground path exactly when
`initialBuildCompleted` is set, otherwise to the background path. -/
def compile (st : EngineState) : CompileTarget :=
  if st.initialBuildCompleted then CompileTarget.foreground
  else CompileTarget.background

/-- Modelled from the spec: the query side of the `HappyFSCache` collaborator
(not under `src/`).  The answers the cache gives for one file path:
`cache.hasChanged(filePath)`, `cache.hasErrored(filePath)`, and
`cache.getCompiledPath(filePath)` (lines 165-166). -/
structure CacheView where
  hasChanged : Bool
  hasErrored : Bool
  compiledPath : String
deriving DecidableEq, Repr

/-- Modelled from the spec: the result object a `HappyThreadPool` worker (not
under `src/`) passes to the `compile` callback (lines 175-185): a success flag
and the path of the produced artifact. -/
structure WorkerResult where
  success : Bool
  compiledPath : String
deriving DecidableEq, Repr

/-- The externally visible steps of `compileInBackground`, in trace order:
a synchronous `fs.readFileSync` (lines 166 and 176), `cache.invalidateEntryFor`
(line 173), dispatch via `threadPool.getThread().compile` (line 175), and
`cache.updateMTimeFor(filePath, compiledPath, error)` (lines 179 and 183). -/
inductive BgEff
  | readFile (p : String)
  | invalidateEntry (p : String)
  | poolDispatch (p : String)
  | updateMTime (p : String) (compiledPath : Option String) (error : Option String)
deriving DecidableEq, Repr

/-- The arguments a compile path passes to the host's `done` callback:
`done(err)`, `done(null, code)` or `done(null, code, map)`.  A JavaScript
argument that is absent or `null` is `none`. -/
structure DoneArgs where
  err : Option String
  code : Option String
  map : Option String
deriving DecidableEq, Repr

/-- Shallow embedding of `compileInBackground(source, map, filePath, done)`
(lines 162-187).  `fsRead` is the filesystem oracle for `fs.readFileSync`;
`cv` is the cache's answer for `filePath`; `worker` is the result the
dispatched worker reports.  Returns the effect trace and the `done` arguments.

If the entry has neither changed nor errored, the recorded artifact is read
and returned (lines 165-167).  Otherwise the entry is invalidated (line 173)
and a worker dispatched (line 175); its callback reads the produced artifact
(line 176) and either records the artifact contents as the entry's error and
fails with them (lines 178-181), or records the new compiled path and succeeds
with the contents and a `null` source map (lines 182-185). -/
def compileInBackground (cv : CacheView) (fsRead : String → String)
    (worker : WorkerResult) (source : String) (map : Option String)
    (filePath : String) : List BgEff × DoneArgs :=
  if !cv.hasChanged && !cv.hasErrored then
    ([BgEff.readFile cv.compiledPath],
      { err := none, code := some (fsRead cv.compiledPath), map := none })
  else
    let contents := fsRead worker.compiledPath
    if worker.success then
      ([BgEff.invalidateEntry filePath, BgEff.poolDispatch filePath,
        BgEff.readFile worker.compiledPath,
        BgEff.updateMTime filePath (some worker.compiledPath) none],
        { err := none, code := some contents, map := none })
    else
      ([BgEff.invalidateEntry filePath, BgEff.poolDispatch filePath,
        BgEff.readFile worker.compiledPath,
        BgEff.updateMTime filePath none (some contents)],
        { err := some contents, code := none, map := none })

/-- Modelled from the spec: the outcome of invoking the `applyLoaders`
transform pipeline (not under `src/`) on one file (lines 199-215): either an
error, or a result carrying compiled code and an optional source map. -/
structure LoaderOutcome where
  err : Option String
  code : String
  map : Option String
deriving DecidableEq, Repr

/-- The externally visible steps of `compileInForeground`, in trace order:
`cache.invalidateEntryFor` (line 197), the `applyLoaders` pipeline invocation
(line 199), `fs.writeFileSync` of the compiled output (line 209), and
`cache.updateMTimeFor` (line 212). -/
inductive FgEff
  | invalidateEntry (p : String)
  | applyLoaders (p : String)
  | writeFile (p : String) (contents : String)
  | updateMTime (p : String) (compiledPath : Option String)
deriving DecidableEq, Repr

/-- Shallow embedding of `compileInForeground(source, map, filePath, done)`
(lines 189-216).  `outcome` is the pipeline's answer; `compiledPath` is the
deterministic temp path `path.resolve(tempDir,
HappyUtils.generateCompiledPath(filePath))` (lines 204-207, `HappyUtils` is
outside `src/`).

The cache entry is invalidated before the pipeline runs (line 197).  A
pipeline error is forwarded to `done` untouched, with no further effects
(lines 200-202).  On success the compiled code is written to `compiledPath`,
the cache updated with that path, and `done(null, code, map)` invoked
(lines 204-214). -/
def compileInForeground (outcome : LoaderOutcome) (compiledPath : String)
    (source : String) (map : Option String) (filePath : String) :
    List FgEff × DoneArgs :=
  match outcome.err with
  | some e =>
    ([FgEff.invalidateEntry filePath, FgEff.applyLoaders filePath],
      { err := some e, code := none, map := none })
  | none =>
    ([FgEff.invalidateEntry filePath, FgEff.applyLoaders filePath,
      FgEff.writeFile compiledPath outcome.code,
      FgEff.updateMTime filePath (some compiledPath)],
      { err := none, code := some outcome.code, map := outcome.map })

/-- The allow-list `HappyPlugin.SERIALIZABLE_OPTIONS` (lines 223-235). -/
def SERIALIZABLE_OPTIONS : List String :=
  ["cache", "context", "debug", "devtool", "resolve", "resolveLoader",
   "module", "node", "output", "target", "watch"]

/-- Shallow embedding of `HappyPlugin.extractOptions` (lines 237-247).  A
JavaScript object is modelled as an association list with distinct keys in
insertion order; the reduce over `Object.keys` keeping exactly the keys with
`ALLOWED_KEYS.indexOf(key) > -1` is a filter on that list. -/
def extractOptions {α : Type} (options : List (String × α)) :
    List (String × α) :=
  options.filter (fun kv => SERIALIZABLE_OPTIONS.contains kv.1)

/-- The `threads` value after `OptionParser` (lib/OptionParser.js lines
35-40): a missing (or `null`/`undefined`) option takes the schema default `3`
(line 27 of the plugin), a supplied number is kept verbatim.  JavaScript
numbers are modelled as rationals. -/
def parseThreadsOption : Option ℚ → ℚ
  | none => 3
  | some v => v

/-- The coercion `Math.max(Math.ceil(threads), 1)` applied at construction
(line 50 of the plugin). -/
def coerceThreads (raw : ℚ) : ℤ :=
  max ⌈raw⌉ 1

/-- The final `config.threads` produced by construction for a given user
`threads` option. -/
def configThreads (userThreads : Option ℚ) : ℤ :=
  coerceThreads (parseThreadsOption userThreads)

/-- The ordering the specification asserts for the cache load inside `start`:
the cache is loaded only after `threadPool.start` has been invoked, i.e. no
`cacheLoad` effect occurs strictly before the `poolStart` effect in the
trace. -/
def cacheLoadOnlyAfterPoolStart (effs : List StartEff) : Prop :=
  StartEff.cacheLoad ∉ effs.takeWhile (fun e => !(e == StartEff.poolStart))

instance (effs : List StartEff) : Decidable (cacheLoadOnlyAfterPoolStart effs) := by
  unfold cacheLoadOnlyAfterPoolStart
  infer_instance

/-- Helper: no host event ever clears `initialBuildCompleted`. -/
theorem stepState_keeps_flag (cfg : HappyConfig) (st : EngineState)
    (e : HostEvent) (h : st.initialBuildCompleted = true) :
    (stepState cfg st e).initialBuildCompleted = true := by
  cases e <;> cases hs : st.started <;>
    simp [stepState, start, teardown, h, hs]

/-- Claim C1, counterexample: on a fresh engine with caching enabled and no
startup errors, `start` loads the cache strictly before invoking
`threadPool.start`, so the claimed "load the cache only after the pool
signals ready" ordering is false. -/
theorem start_cacheLoad_order_counterexample :
    ¬ cacheLoadOnlyAfterPoolStart
        (start { cache := true, installExitHandler := true } initialState
          { writeError := none, poolError := none }).2.1 := by
  decide

/-- Claim C1 (amended): on a build-begin event with the engine idle and the
initial build not completed, `start` first writes the configuration snapshot
(a write failure aborts the start with that error and leaves the engine not
started); otherwise it constructs the worker pool, loads the cache when
caching is enabled, and only then invokes the pool start, blocking the host's
readiness callback on the pool's answer: a pool error is propagated with the
engine left not started, and on success the engine becomes started and the
callback succeeds. -/
theorem start_effect_order (cfg : HappyConfig) (st : EngineState)
    (env : StartEnv) (hs : st.started = false)
    (hc : st.initialBuildCompleted = false) :
    (∀ e, env.writeError = some e →
      start cfg st env = (st, [StartEff.writeSnapshot], some e)) ∧
    (env.writeError = none →
      (start cfg st env).2.1 =
        [StartEff.writeSnapshot, StartEff.constructPool]
          ++ (if cfg.cache then [StartEff.cacheLoad] else [])
          ++ [StartEff.poolStart] ∧
      (∀ e, env.poolError = some e →
        (start cfg st env).2.2 = some e ∧
        (start cfg st env).1.started = false) ∧
      (env.poolError = none →
        (start cfg st env).2.2 = none ∧
        (start cfg st env).1.started = true)) := by
  constructor
  · intro e he
    simp [start, hs, hc, he]
  · intro hw
    cases hp : env.poolError <;> simp [start, hs, hc, hw, hp]

/-- Witness for `start_effect_order` at a concrete idle engine. -/
theorem start_effect_order_witness :
    (start { cache := true, installExitHandler := true } initialState
      { writeError := none, poolError := none }).2.2 = none ∧
    (start { cache := true, installExitHandler := true } initialState
      { writeError := none, poolError := none }).1.started = true :=
  ((start_effect_order { cache := true, installExitHandler := true }
      initialState { writeError := none, poolError := none } rfl rfl).2
    rfl).2.2 rfl

/-- Claim C2: the build-finished handler sets `initialBuildCompleted`; no
host event ever clears it again; and the `compile` dispatcher routes to the
foreground path exactly when the flag is set, to the background path
otherwise. -/
theorem compile_routing_permanent (cfg : HappyConfig) :
    (∀ st, (stepState cfg st HostEvent.buildDone).initialBuildCompleted
      = true) ∧
    (∀ st (evs : List HostEvent), st.initialBuildCompleted = true →
      (List.foldl (stepState cfg) st evs).initialBuildCompleted = true) ∧
    (∀ st, st.initialBuildCompleted = true →
      compile st = CompileTarget.foreground) ∧
    (∀ st, st.initialBuildCompleted = false →
      compile st = CompileTarget.background) := by
  refine ⟨?_, ?_, ?_, ?_⟩
  · intro st
    simp [stepState]
  · intro st evs h
    induction evs generalizing st with
    | nil => simpa using h
    | cons e rest ih => exact ih _ (stepState_keeps_flag cfg st e h)
  · intro st h
    simp [compile, h]
  · intro st h
    simp [compile, h]

/-- Witness for `compile_routing_permanent`: after the first build finishes,
further run, exit and done events leave the flag set, and routing is
foreground; a fresh engine routes background. -/
theorem compile_routing_permanent_witness :
    (List.foldl (stepState { cache := true, installExitHandler := true })
      { started := false, initialBuildCompleted := true, threadPool := true }
      [HostEvent.run { writeError := none, poolError := none },
       HostEvent.buildDone, HostEvent.processExit]).initialBuildCompleted
      = true ∧
    compile { started := false, initialBuildCompleted := true,
              threadPool := true } = CompileTarget.foreground ∧
    compile initialState = CompileTarget.background :=
  ⟨(compile_routing_permanent
      { cache := true, installExitHandler := true }).2.1 _ _ rfl,
   (compile_routing_permanent
      { cache := true, installExitHandler := true }).2.2.1 _ rfl,
   (compile_routing_permanent
      { cache := true, installExitHandler := true }).2.2.2 _ rfl⟩

/-- Claim C5: `teardown` is idempotent — a second consecutive invocation
changes nothing and performs no effects; on a non-started engine it is a
no-op; on a started engine it clears only `started`, saves the cache exactly
when caching is enabled, and stops the pool exactly when one was
constructed.  (The embedded `teardown` is a total function, so it never
throws.) -/
theorem teardown_idempotent (cfg : HappyConfig) :
    (∀ st, teardown cfg (teardown cfg st).1 = ((teardown cfg st).1, [])) ∧
    (∀ st, st.started = false → teardown cfg st = (st, [])) ∧
    (∀ st, st.started = true →
      (teardown cfg st).1 = { st with started := false } ∧
      (teardown cfg st).2 =
        (if cfg.cache then [TeardownEff.cacheSave] else [])
          ++ (if st.threadPool then [TeardownEff.poolStop] else [])) := by
  refine ⟨?_, ?_, ?_⟩
  · intro st
    cases hs : st.started <;> simp [teardown, hs]
  · intro st hs
    simp [teardown, hs]
  · intro st hs
    simp [teardown, hs]

/-- Witness for `teardown_idempotent` on a started engine with caching and a
constructed pool. -/
theorem teardown_idempotent_witness :
    teardown { cache := true, installExitHandler := true }
      (teardown { cache := true, installExitHandler := true }
        { started := true, initialBuildCompleted := false,
          threadPool := true }).1 =
      ((teardown { cache := true, installExitHandler := true }
        { started := true, initialBuildCompleted := false,
          threadPool := true }).1, []) ∧
    (teardown { cache := true, installExitHandler := true }
      { started := true, initialBuildCompleted := false,
        threadPool := true }).2 =
      [TeardownEff.cacheSave, TeardownEff.poolStop] :=
  ⟨(teardown_idempotent { cache := true, installExitHandler := true }).1 _,
   by
    have h := ((teardown_idempotent
      { cache := true, installExitHandler := true }).2.2
      { started := true, initialBuildCompleted := false,
        threadPool := true } rfl).2
    simpa using h⟩

/-- Claim C6: a build-begin event on an engine that is already started, or
whose initial build has completed, is a pure no-op — `start` performs no
effects (no snapshot rewrite, no pool construction or restart), leaves the
state unchanged, and invokes the readiness callback immediately with no
error. -/
theorem start_noop_when_started_or_completed (cfg : HappyConfig)
    (st : EngineState) (env : StartEnv)
    (h : st.started = true ∨ st.initialBuildCompleted = true) :
    start cfg st env = (st, [], none) := by
  rcases h with h | h <;> simp [start, h]

/-- Witness for `start_noop_when_started_or_completed` on a started engine. -/
theorem start_noop_witness :
    start { cache := true, installExitHandler := true }
      { started := true, initialBuildCompleted := false, threadPool := true }
      { writeError := none, poolError := none } =
      ({ started := true, initialBuildCompleted := false,
         threadPool := true }, [], none) :=
  start_noop_when_started_or_completed _ _ _ (Or.inl rfl)

/-- Claim C3: when the cache reports the entry neither changed nor errored,
`compileInBackground` returns the contents read from the cache's recorded
compiled path with no error, and its trace contains no pool dispatch, no
invalidation and no cache update — so the cache is left untouched and any
repeated call under the same cache state behaves identically. -/
theorem compileInBackground_cache_hit (cv : CacheView)
    (fsRead : String → String) (worker : WorkerResult) (source : String)
    (map : Option String) (filePath : String)
    (hc : cv.hasChanged = false) (he : cv.hasErrored = false) :
    compileInBackground cv fsRead worker source map filePath =
      ([BgEff.readFile cv.compiledPath],
        { err := none, code := some (fsRead cv.compiledPath),
          map := none }) ∧
    (∀ p, BgEff.poolDispatch p ∉
      (compileInBackground cv fsRead worker source map filePath).1) ∧
    (∀ p, BgEff.invalidateEntry p ∉
      (compileInBackground cv fsRead worker source map filePath).1) ∧
    (∀ p cp er, BgEff.updateMTime p cp er ∉
      (compileInBackground cv fsRead worker source map filePath).1) := by
  simp [compileInBackground, hc, he]

/-- Witness for `compileInBackground_cache_hit` at a concrete unchanged,
non-errored entry. -/
theorem compileInBackground_cache_hit_witness :
    compileInBackground
      { hasChanged := false, hasErrored := false, compiledPath := "c.js" }
      (fun _ => "artifact") { success := true, compiledPath := "w.js" }
      "src" none "a.js" =
      ([BgEff.readFile "c.js"],
        { err := none, code := some "artifact", map := none }) :=
  (compileInBackground_cache_hit _ _ _ _ _ _ rfl rfl).1

/-- Claim C4: when the cache reports the entry changed or errored,
`compileInBackground` invalidates the entry and only then dispatches to the
pool; on worker failure the cache is updated with the artifact contents as
the entry's error and those contents are returned as the error indicator,
and on worker success the cache is updated with the new compiled path and
the contents are returned with no error. -/
theorem compileInBackground_recompile (cv : CacheView)
    (fsRead : String → String) (worker : WorkerResult) (source : String)
    (map : Option String) (filePath : String)
    (h : cv.hasChanged = true ∨ cv.hasErrored = true) :
    (compileInBackground cv fsRead worker source map filePath).1.take 2 =
      [BgEff.invalidateEntry filePath, BgEff.poolDispatch filePath] ∧
    (worker.success = false →
      compileInBackground cv fsRead worker source map filePath =
        ([BgEff.invalidateEntry filePath, BgEff.poolDispatch filePath,
          BgEff.readFile worker.compiledPath,
          BgEff.updateMTime filePath none
            (some (fsRead worker.compiledPath))],
          { err := some (fsRead worker.compiledPath), code := none,
            map := none })) ∧
    (worker.success = true →
      compileInBackground cv fsRead worker source map filePath =
        ([BgEff.invalidateEntry filePath, BgEff.poolDispatch filePath,
          BgEff.readFile worker.compiledPath,
          BgEff.updateMTime filePath (some worker.compiledPath) none],
          { err := none, code := some (fsRead worker.compiledPath),
            map := none })) := by
  rcases h with h | h <;> cases hw : worker.success <;>
    simp [compileInBackground, h, hw]

/-- Witness for `compileInBackground_recompile` at a concrete changed entry
whose worker reports failure. -/
theorem compileInBackground_recompile_witness :
    compileInBackground
      { hasChanged := true, hasErrored := false, compiledPath := "c.js" }
      (fun _ => "error output") { success := false, compiledPath := "w.js" }
      "src" none "a.js" =
      ([BgEff.invalidateEntry "a.js", BgEff.poolDispatch "a.js",
        BgEff.readFile "w.js",
        BgEff.updateMTime "a.js" none (some "error output")],
        { err := some "error output", code := none, map := none }) :=
  (compileInBackground_recompile _ _ _ _ _ _ (Or.inl rfl)).2.1 rfl

/-- Claim C7: `compileInForeground` invalidates the cache entry before the
transform pipeline runs, and a pipeline error is propagated to the caller
as-is with no cache update and no artifact write for that path. -/
theorem compileInForeground_error (outcome : LoaderOutcome)
    (compiledPath : String) (source : String) (map : Option String)
    (filePath : String) (e : String) (h : outcome.err = some e) :
    compileInForeground outcome compiledPath source map filePath =
      ([FgEff.invalidateEntry filePath, FgEff.applyLoaders filePath],
        { err := some e, code := none, map := none }) ∧
    (∀ p cp, FgEff.updateMTime p cp ∉
      (compileInForeground outcome compiledPath source map filePath).1) ∧
    (∀ p c, FgEff.writeFile p c ∉
      (compileInForeground outcome compiledPath source map filePath).1) := by
  simp [compileInForeground, h]

/-- Witness for `compileInForeground_error` at a concrete failing pipeline
outcome. -/
theorem compileInForeground_error_witness :
    compileInForeground { err := some "boom", code := "", map := none }
      "t.js" "src" none "a.js" =
      ([FgEff.invalidateEntry "a.js", FgEff.applyLoaders "a.js"],
        { err := some "boom", code := none, map := none }) :=
  (compileInForeground_error _ _ _ _ _ "boom" rfl).1

/-- Claim C8: `extractOptions` keeps exactly the association pairs whose key
is in `SERIALIZABLE_OPTIONS`: every pair of the result has an allow-listed
key and occurs verbatim in the input, and every input pair with an
allow-listed key is kept, so keys outside the allow-list never appear. -/
theorem extractOptions_allowlist {α : Type} (options : List (String × α)) :
    (∀ kv, kv ∈ extractOptions options →
      kv.1 ∈ SERIALIZABLE_OPTIONS ∧ kv ∈ options) ∧
    (∀ kv, kv ∈ options → kv.1 ∈ SERIALIZABLE_OPTIONS →
      kv ∈ extractOptions options) := by
  constructor
  · intro kv hkv
    rw [extractOptions, List.mem_filter] at hkv
    exact ⟨by simpa using hkv.2, hkv.1⟩
  · intro kv h1 h2
    rw [extractOptions, List.mem_filter]
    exact ⟨h1, by simpa using h2⟩

/-- Witness for `extractOptions_allowlist`: an allow-listed key survives
extraction from a configuration that also carries a foreign key. -/
theorem extractOptions_allowlist_witness :
    ("cache", (1 : Nat)) ∈
      extractOptions [("cache", (1 : Nat)), ("plugins", 2)] ∧
    ("plugins", (2 : Nat)).1 ∉ SERIALIZABLE_OPTIONS :=
  ⟨(extractOptions_allowlist [("cache", (1 : Nat)), ("plugins", 2)]).2
      ("cache", 1) (by simp) (by simp [SERIALIZABLE_OPTIONS]),
   by simp [SERIALIZABLE_OPTIONS]⟩

/-- Claim C9: the constructed `config.threads` is always an integer at least
1; the configuration `threads := 2.4` yields 3, and an absent option yields
the default 3. -/
theorem threads_coercion :
    (∀ t : ℚ, 1 ≤ configThreads (some t)) ∧
    configThreads (some (2.4 : ℚ)) = 3 ∧
    configThreads none = 3 := by
  refine ⟨?_, ?_, ?_⟩
  · intro t
    exact le_max_right _ _
  · show max ⌈(2.4 : ℚ)⌉ 1 = 3
    have h : ⌈(2.4 : ℚ)⌉ = 3 := by
      rw [Int.ceil_eq_iff] <;> norm_num
    rw [h]
    decide
  · show max ⌈(3 : ℚ)⌉ 1 = 3
    have h : ⌈(3 : ℚ)⌉ = 3 := by
      rw [Int.ceil_eq_iff] <;> norm_num
    rw [h]
    decide

/-- Claim C10: the background path never hands a source map to the caller —
both a cache hit and a worker result produce `done` arguments whose map is
absent — while the foreground path forwards the pipeline's map on success,
whatever map argument `compile` received. -/
theorem background_never_returns_map :
    (∀ (cv : CacheView) (fsRead : String → String) (worker : WorkerResult)
        (source : String) (map : Option String) (filePath : String),
      (compileInBackground cv fsRead worker source map filePath).2.map
        = none) ∧
    (∀ (outcome : LoaderOutcome) (compiledPath source : String)
        (map : Option String) (filePath : String), outcome.err = none →
      (compileInForeground outcome compiledPath source map filePath).2.map
        = outcome.map) := by
  constructor
  · intro cv fsRead worker source map filePath
    cases hch : cv.hasChanged <;> cases herr : cv.hasErrored <;>
      cases hw : worker.success <;>
      simp [compileInBackground, hch, herr, hw]
  · intro outcome compiledPath source map filePath h
    simp [compileInForeground, h]

/-- Witness for `background_never_returns_map`: a successful background
worker compile returns no map even when a map was passed in, while a
successful foreground compile forwards the pipeline's map. -/
theorem background_never_returns_map_witness :
    (compileInBackground
      { hasChanged := true, hasErrored := false, compiledPath := "c.js" }
      (fun _ => "out") { success := true, compiledPath := "w.js" }
      "src" (some "inmap") "a.js").2.map = none ∧
    (compileInForeground { err := none, code := "out", map := some "m" }
      "t.js" "src" (some "inmap") "a.js").2.map = some "m" :=
  ⟨background_never_returns_map.1 _ _ _ _ _ _,
   background_never_returns_map.2
     { err := none, code := "out", map := some "m" } _ _ _ _ rfl⟩

end HappyPack
